import Mathlib

/-!
# Verification of the Mail-customdomain bulk task executor

Shallow embedding of `bulk-operations/src/account-manager.ts`,
`bulk-operations/types/bulk-types.ts` and
`api-verification/utils/api-client.ts` from the Mail-customdomain
repository, together with a spec-modelled `BatchProcessor` (the file
`bulk-operations/utils/batch-processor.ts` is imported by
`account-manager.ts` but is not part of the available sources; its
behaviour is modelled from the specification, see the doc comments of
the definitions marked "Modelled from the spec").

Conventions of the embedding:
* JavaScript numbers used as integers are `Nat` (or `Int` where the
  source can receive negative values); fractional results of divisions
  are `ℚ`.
* A JavaScript value that can be `null` is an `Option`; a division whose
  denominator can be `0` (yielding `NaN`/`Infinity` in JS) is modelled
  as an `Option ℚ` that is `none` exactly in that case.
* Asynchronous worker behaviour is a pure oracle: a function from the
  item index and the 1-based attempt number to the outcome of that
  attempt.
-/

namespace MailBulk

/-- One unit of work: a caller-supplied item id plus opaque data.
Mirrors the task objects built in `createBulkAccounts`
(`{ id: email, data: { email, password } }`). Only the identifier is
relevant to the properties below. -/
structure Task where
  id : String
  deriving Repr, DecidableEq

/-- A created account, as far as the executor observes it: the address
it was created under.  Mirrors the `Account` values returned by
`createSingleAccount` (the remote `createAccount(email, …)` call is
modelled as returning an account at the requested address). -/
structure AccountR where
  address : String
  deriving Repr, DecidableEq

/-- `BulkOperationFailure` from `bulk-types.ts`: item id, error
message, number of retry attempts made. -/
structure BOFailure where
  item : String
  error : String
  retryAttempts : Nat
  deriving Repr, DecidableEq

/-- Per-batch result shape (`BatchResult<T>` in `bulk-types.ts`),
specialised to accounts: successfully processed items and failed
items. -/
structure BatchResultR where
  successful : List AccountR
  failed : List BOFailure
  deriving Repr, DecidableEq

/-! ## JavaScript `String.prototype.replace` with a string pattern

`account-manager.ts` builds emails with
`pattern.replace('{index}', …).replace('{timestamp}', …).replace('{random}', …)`.
With a string (non-regex) first argument, JS `replace` replaces only the
FIRST occurrence of the pattern, and returns the string unchanged when
the pattern does not occur. -/

/-- Does `l` start with `p`? -/
def listStartsWith : List Char → List Char → Bool
  | _, [] => true
  | [], _ :: _ => false
  | a :: as, b :: bs => a == b && listStartsWith as bs

/-- Replace the first occurrence of `pat` in the character list by
`repl`; identity when `pat` does not occur. -/
def replaceFirstAux (pat repl : List Char) : List Char → List Char
  | [] => []
  | c :: cs =>
    if listStartsWith (c :: cs) pat then repl ++ (c :: cs).drop pat.length
    else c :: replaceFirstAux pat repl cs

/-- JS `s.replace(pat, repl)` for a string pattern: first occurrence
only. -/
def jsReplaceFirst (s pat repl : String) : String :=
  String.mk (replaceFirstAux pat.data repl.data s.data)

/-- The literal placeholder token for the 1-based index. -/
def idxToken : String := "\x7bindex\x7d"

/-- The literal placeholder token for the timestamp. -/
def tsToken : String := "\x7btimestamp\x7d"

/-- The literal placeholder token for the random component. -/
def rndToken : String := "\x7brandom\x7d"

/-- One email from a pattern, as computed in
`createAccountsWithPattern` / `generateEmailAddresses`:
`pattern.replace('{index}', i).replace('{timestamp}', ts).replace('{random}', rnd)`.
`i` is the 1-based loop index; `ts` and `rnd` stand for the values of
`Date.now()` and `Math.random().toString(36).substr(2, 5)` at that
iteration. -/
def patternEmail (pattern : String) (i : Nat) (ts : Nat) (rnd : String) : String :=
  jsReplaceFirst (jsReplaceFirst (jsReplaceFirst pattern idxToken (toString i))
    tsToken (toString ts)) rndToken rnd

/-- The email list built by `createAccountsWithPattern`
(`for (let i = 1; i <= count; i++)`); `ts` and `rnd` are indexed by the
0-based iteration because `Date.now()` / `Math.random()` are re-read on
every iteration there. -/
def patternEmails (pattern : String) (count : Nat) (ts : Nat → Nat) (rnd : Nat → String) :
    List String :=
  (List.range count).map fun k => patternEmail pattern (k + 1) (ts k) (rnd k)

/-- The email list built by `generateEmailAddresses` when no
`emailPattern` option is given: `` `${emailPrefix}-${timestamp}-${i}@${domain}` ``
with one timestamp shared by all iterations. -/
def defaultEmails (emailBase domain : String) (count : Nat) (ts : Nat) : List String :=
  (List.range count).map fun k =>
    emailBase ++ "-" ++ toString ts ++ "-" ++ toString (k + 1) ++ "@" ++ domain

/-! ## Retry policy and per-item settlement

Modelled from the spec: the `BatchProcessor` source file
(`bulk-operations/utils/batch-processor.ts`) is not among the available
sources — only its caller `account-manager.ts` and the type file are.
The default retry policy is "retry while `attempt ≤ maxRetries`", with
the `k`-th retry delayed by `retryDelay * 2^(k-1)` (exponential
backoff).  A worker attempt is an oracle `fails : Nat → Option String`:
`fails a = none` means the 1-based attempt `a` succeeds, `fails a = some e`
means it raises error message `e`. -/

/-- Outcome of driving one item to settlement: whether it ultimately
succeeded, how many times the worker function was invoked, how many of
those invocations were retries, and the final error message (empty on
success). -/
structure Settlement where
  succeeded : Bool
  invocations : Nat
  retryAttempts : Nat
  lastError : String
  deriving Repr, DecidableEq

/-- Modelled from the spec: the retry loop of the missing
`BatchProcessor`.  `attempt` is the 1-based number of the attempt being
made; `retriesLeft = maxRetries - (attempt - 1)` is the number of
retries still allowed, so that a failed attempt retries exactly when
`attempt ≤ maxRetries`. -/
def attemptLoop (fails : Nat → Option String) : Nat → Nat → Settlement
  | retriesLeft, attempt =>
    match fails attempt with
    | none => ⟨true, attempt, attempt - 1, ""⟩
    | some e =>
      match retriesLeft with
      | 0 => ⟨false, attempt, attempt - 1, e⟩
      | r + 1 => attemptLoop fails r (attempt + 1)

/-- Modelled from the spec: settle one item under the default retry
policy with the given retry budget. -/
def settle (maxRetries : Nat) (fails : Nat → Option String) : Settlement :=
  attemptLoop fails maxRetries 1

/-- Modelled from the spec: backoff delay before the `k`-th retry
(`retryDelay * 2^(attempt-1)`). -/
def delayFor (retryDelay : Nat) (k : Nat) : Nat :=
  retryDelay * 2 ^ (k - 1)

/-! ## Batching and the batch processor -/

/-- Fuel-driven worker for `chunksOf`; the fuel bounds the number of
chunks produced (each chunk consumes at least one element, so a fuel of
`l.length` is always enough). -/
def chunksOfFuel (n : Nat) : Nat → List α → List (List α)
  | 0, _ => []
  | _, [] => []
  | fuel + 1, x :: xs => (x :: xs.take (n - 1)) :: chunksOfFuel n fuel (xs.drop (n - 1))

/-- Split a list into consecutive chunks of `n` elements (the last chunk
may be shorter).  `n` is taken `≥ 1` by the callers. -/
def chunksOf (n : Nat) (l : List α) : List (List α) :=
  chunksOfFuel n l.length l

/-- Clamp a scheduling parameter to at least 1, as the spec requires of
the effective `batchSize`/`concurrency` (values `< 1` are clamped
to `1`). -/
def clampPos (v : Int) : Nat :=
  if v < 1 then 1 else v.toNat

/-- Modelled from the spec: process one batch of (globally indexed)
tasks.  Every task is attempted; each is retired into exactly one of
`successful` (the account created at the task's id) or `failed` (a
`BulkOperationFailure` carrying the task id, the final error and the
retry count). -/
def processBatch (maxRetries : Nat) (fails : Nat → Nat → Option String)
    (batch : List (Nat × Task)) : BatchResultR :=
  { successful :=
      (batch.filter fun p => (settle maxRetries (fails p.1)).succeeded).map
        fun p => ⟨p.2.id⟩
    failed :=
      (batch.filter fun p => !(settle maxRetries (fails p.1)).succeeded).map
        fun p =>
          ⟨p.2.id, (settle maxRetries (fails p.1)).lastError,
            (settle maxRetries (fails p.1)).retryAttempts⟩ }

/-- Modelled from the spec: `BatchProcessor.processBatches` (its source
file is missing from the repository).  The tasks are enumerated, split
into chunks of the (clamped) batch size, and each chunk is processed
into one `BatchResult`; the list of per-batch results is returned, as
consumed by the `for (const batch of results)` loops in
`account-manager.ts`.  Per-item worker errors are recovered locally
into the `failed` list and never propagate. -/
def processBatches (batchSize : Int) (maxRetries : Nat)
    (fails : Nat → Nat → Option String) (tasks : List Task) : List BatchResultR :=
  (chunksOf (clampPos batchSize) tasks.enum).map (processBatch maxRetries fails)

/-- The aggregation loop of `createBulkAccounts` /
`createAccountsWithPattern`:
`for (const batch of results) { successful.push(...); failed.push(...) }`. -/
def aggregateResults (results : List BatchResultR) : List AccountR × List BOFailure :=
  (results.foldl (fun acc b => acc ++ b.successful) [],
   results.foldl (fun acc b => acc ++ b.failed) [])

/-! ## Effective configuration (`account-manager.ts`) -/

/-- JavaScript `a || b` on numbers, as used in
`options.batchSize || this.config.batchSize`: a missing (`undefined`)
or zero (falsy) left operand yields the right operand; any other value
— including negative ones — is returned unchanged. -/
def jsOrDefault (v : Option Int) (d : Int) : Int :=
  match v with
  | none => d
  | some x => if x = 0 then d else x

/-! ## Progress, context, metrics, summaries (`account-manager.ts`) -/

/-- `BulkOperationProgress` from `bulk-types.ts`.  In the source the
field `estimatedTimeRemaining` has type `number`; it is modelled as
`Option ℚ` so that the spec's "reported as `null`" is statable:
`some x` is the number `x`, `none` is `null`.  Timestamps are `Nat`. -/
structure ProgressR where
  currentStep : String
  completed : Nat
  total : Nat
  percentage : ℚ
  estimatedTimeRemaining : Option ℚ
  currentRate : ℚ
  errorCount : Nat
  startTime : Nat
  lastUpdate : Nat
  deriving Repr, DecidableEq

/-- The slice of `BulkOperationContext` relevant here: operation type,
start time, live progress, the error log (initialised empty, summed by
`calculateMetrics`), and the cancellation flag. -/
structure OperationContextR where
  operationType : String
  startTime : Nat
  progress : ProgressR
  errors : List BOFailure
  cancelled : Bool
  deriving Repr, DecidableEq

/-- `createOperationContext` from `account-manager.ts`: fresh context
with `completed = 0`, the given `total`, `percentage = 0`,
`estimatedTimeRemaining = 0` (a number, not `null`), `currentRate = 0`,
`errorCount = 0`, and an empty `errors` list. -/
def createOperationContext (type : String) (total : Nat) (now : Nat) :
    OperationContextR :=
  { operationType := type
    startTime := now
    progress :=
      { currentStep := "initializing"
        completed := 0
        total := total
        percentage := 0
        estimatedTimeRemaining := some 0
        currentRate := 0
        errorCount := 0
        startTime := now
        lastUpdate := now }
    errors := []
    cancelled := false }

/-- Modelled from the spec: the shape of one progress update emitted by
the missing `BatchProcessor` through its `onProgress` callback.  Per
§4.4 the tracker updates `completed`, `errorCount`, `currentRate` and
`estimatedTimeRemaining` on each settlement; `total` is fixed at batch
start and is not part of an update. -/
structure ProgressUpdate where
  currentStep : String
  completed : Nat
  errorCount : Nat
  currentRate : ℚ
  estimatedTimeRemaining : Option ℚ
  deriving Repr, DecidableEq

/-- `updateProgress` from `account-manager.ts`:
`context.progress = { ...context.progress, ...update, lastUpdate: new Date() }` —
the fields present in the update override the old progress, `lastUpdate`
is stamped, and everything else (in particular `total`) is kept. -/
def updateProgress (ctx : OperationContextR) (u : ProgressUpdate) (now : Nat) :
    OperationContextR :=
  { ctx with
    progress :=
      { ctx.progress with
        currentStep := u.currentStep
        completed := u.completed
        errorCount := u.errorCount
        currentRate := u.currentRate
        estimatedTimeRemaining := u.estimatedTimeRemaining
        lastUpdate := now } }

/-- A progress event as handed to the `ProgressCallback` by
`emitProgress`: the event type and the context's progress snapshot. -/
structure BulkEvent where
  type : String
  progress : ProgressR
  deriving Repr, DecidableEq

/-- `emitProgress` from `account-manager.ts`, restricted to what the
callback observes: the event carries `context.progress` as its
snapshot. -/
def emitProgress (type : String) (ctx : OperationContextR) : BulkEvent :=
  ⟨type, ctx.progress⟩

/-- Modelled from the spec: the tracker's recomputation on settlement
(§4.4).  After the settlements `settled` (one `Bool` per settled item,
`false` = failure) with `elapsed` seconds gone:
`completed = |settled|`, `currentRate = completed / elapsed`,
`estimatedTimeRemaining = (total - completed) / currentRate`, reported
as `null` (`none`) when `currentRate = 0`. -/
def trackerUpdate (total : Nat) (settled : List Bool) (elapsed : ℚ) :
    ProgressUpdate :=
  let completed : Nat := settled.length
  let rate : ℚ := if elapsed = 0 then 0 else (completed : ℚ) / elapsed
  { currentStep := "processing"
    completed := completed
    errorCount := settled.countP (fun b => !b)
    currentRate := rate
    estimatedTimeRemaining :=
      if rate = 0 then none else some (((total : ℚ) - (completed : ℚ)) / rate) }

/-- Division as JavaScript performs it on finite operands: `none` models
the non-finite results (`NaN` for `0/0`, `±Infinity` otherwise) produced
when the denominator is `0`. -/
def jsDivQ (a b : ℚ) : Option ℚ :=
  if b = 0 then none else some (a / b)

/-- `BulkOperationMetrics` (the fields used by the claims; `apiTime`,
`processingTime` and `peakMemoryUsage` are environment readings and are
omitted). -/
structure BulkMetricsR where
  totalTime : Nat
  averageResponseTime : ℚ
  requestsPerSecond : Option ℚ
  totalRetries : Nat
  errorRate : ℚ
  deriving Repr, DecidableEq

/-- `calculateMetrics` from `account-manager.ts`:
`totalTime = now - startTime`; the divisions by `totalOperations` are
guarded by `totalOperations > 0` and fall back to `0`;
`totalRetries = context.errors.reduce((sum, e) => sum + e.retryAttempts, 0)`. -/
def calculateMetrics (ctx : OperationContextR) (successCount failureCount : Nat)
    (now : Nat) : BulkMetricsR :=
  let totalTime := now - ctx.startTime
  let totalOperations := successCount + failureCount
  { totalTime := totalTime
    averageResponseTime :=
      if totalOperations > 0 then (totalTime : ℚ) / (totalOperations : ℚ) else 0
    requestsPerSecond :=
      if totalOperations > 0 then
        (jsDivQ (totalOperations : ℚ) (totalTime : ℚ)).map (fun q => q * 1000)
      else some 0
    totalRetries := (ctx.errors.map fun e => e.retryAttempts).sum
    errorRate :=
      if totalOperations > 0 then
        (failureCount : ℚ) / (totalOperations : ℚ) * 100
      else 0 }

/-- The summary record built by `createSummary`. -/
structure BulkSummaryR where
  totalAttempted : Nat
  successCount : Nat
  failureCount : Nat
  successRate : ℚ
  totalTime : Nat
  averageTimePerAccount : ℚ
  deriving Repr, DecidableEq

/-- `createSummary` from `account-manager.ts`: both divisions are
guarded by `attempted > 0` and fall back to `0`. -/
def createSummary (attempted successful failed : Nat) (metrics : BulkMetricsR) :
    BulkSummaryR :=
  { totalAttempted := attempted
    successCount := successful
    failureCount := failed
    successRate :=
      if attempted > 0 then (successful : ℚ) / (attempted : ℚ) * 100 else 0
    totalTime := metrics.totalTime
    averageTimePerAccount :=
      if attempted > 0 then (metrics.totalTime : ℚ) / (attempted : ℚ) else 0 }

/-- The summary inside `AccountValidationResult` as built inline by
`validateBulkAccounts`: `validationRate = (valid.length / accounts.length) * 100`
— the division is NOT guarded, so an empty input yields `0/0` (`NaN`,
modelled `none`). -/
structure ValidationSummaryR where
  totalValidated : Nat
  validCount : Nat
  invalidCount : Nat
  validationRate : Option ℚ
  deriving Repr, DecidableEq

/-- The unguarded summary computation of `validateBulkAccounts`. -/
def validationSummary (totalValidated validCount invalidCount : Nat) :
    ValidationSummaryR :=
  { totalValidated := totalValidated
    validCount := validCount
    invalidCount := invalidCount
    validationRate :=
      (jsDivQ (validCount : ℚ) (totalValidated : ℚ)).map (fun q => q * 100) }

/-! ## Assembled public operations (`account-manager.ts`)

Time is modelled by a virtual clock that counts worker-function
invocations: the run starts at clock `0` and ends at clock
`totalInvocations …`.  This realises the spec's "an empty run returns
immediately (`totalTime ≈ 0`)" as `totalTime = 0` exactly, since an
empty run performs no invocation. -/

/-- The options of `createBulkAccounts` used here (`emailPrefix` in the
source is `emailBase`; `password` and `metadata` do not influence the
verified properties). -/
structure BulkOptionsR where
  count : Nat
  emailBase : String
  domain : String
  emailPattern : Option String
  batchSize : Option Int
  concurrency : Option Int

/-- `BulkOperationConfig` (the scheduling-relevant fields).
`batchSize` and `concurrency` are `Int` because the source performs no
validation and negative values can flow through. -/
structure BulkConfigR where
  batchSize : Int
  concurrency : Int
  requestDelay : Nat
  maxRetries : Nat
  retryDelay : Nat

/-- `DEFAULT_CONFIG` from `account-manager.ts`:
`batchSize 20, concurrency 3, requestDelay 1000, maxRetries 3,
retryDelay 2000`. -/
def DEFAULT_CONFIG : BulkConfigR :=
  { batchSize := 20, concurrency := 3, requestDelay := 1000,
    maxRetries := 3, retryDelay := 2000 }

/-- The final value of `createBulkAccounts` /
`createAccountsWithPattern` (`BulkAccountResult`). -/
structure BulkResultR where
  successful : List AccountR
  failed : List BOFailure
  metrics : BulkMetricsR
  summary : BulkSummaryR

/-- `generateEmailAddresses` from `account-manager.ts`: with an
`emailPattern` the three placeholder replacements are applied with ONE
timestamp shared by all iterations and a fresh random string per
iteration; otherwise the default `` `${prefix}-${timestamp}-${i}@${domain}` ``
shape is used. -/
def generateEmailAddresses (opts : BulkOptionsR) (ts : Nat) (rnd : Nat → String) :
    List String :=
  match opts.emailPattern with
  | some pat => (List.range opts.count).map fun k => patternEmail pat (k + 1) ts (rnd k)
  | none => defaultEmails opts.emailBase opts.domain opts.count ts

/-- Total number of worker-function invocations a run performs: the sum
over all tasks of the invocations needed to settle each. -/
def totalInvocations (maxRetries : Nat) (fails : Nat → Nat → Option String)
    (tasks : List Task) : Nat :=
  (tasks.enum.map fun p => (settle maxRetries (fails p.1)).invocations).sum

/-- The per-settlement outcome sequence of a run (in settlement order,
taken here as enumeration order): `true` = the item ultimately
succeeded. -/
def outcomesOf (maxRetries : Nat) (fails : Nat → Nat → Option String)
    (tasks : List Task) : List Bool :=
  tasks.enum.map fun p => (settle maxRetries (fails p.1)).succeeded

/-- The progress updates delivered over a run: after the `(k+1)`-st
settlement the tracker emits `trackerUpdate total (first k+1 outcomes)`;
`elapsedAt k` is the elapsed-seconds oracle at that point. -/
def progressUpdates (total : Nat) (outcomes : List Bool) (elapsedAt : Nat → ℚ) :
    List ProgressUpdate :=
  (List.range outcomes.length).map fun k =>
    trackerUpdate total (outcomes.take (k + 1)) (elapsedAt k)

/-- The context after a run: the initial context with every progress
update of the run applied through `updateProgress` (the only writer;
nothing ever appends to `context.errors`). -/
def finalContext (ctx : OperationContextR) (updates : List ProgressUpdate) :
    OperationContextR :=
  updates.foldl (fun c u => updateProgress c u c.progress.lastUpdate) ctx

/-- `createBulkAccounts` from `account-manager.ts`, assembled: generate
the emails, build the tasks, run the (spec-modelled) batch processor
with the effective batch size `options.batchSize || config.batchSize`,
aggregate the per-batch results, and derive metrics and summary from
the final context. -/
def createBulkAccounts (opts : BulkOptionsR) (cfg : BulkConfigR) (ts : Nat)
    (rnd : Nat → String) (fails : Nat → Nat → Option String)
    (elapsedAt : Nat → ℚ) : BulkResultR :=
  let ctx := createOperationContext ("account-creation") opts.count 0
  let emails := generateEmailAddresses opts ts rnd
  let tasks : List Task := emails.map fun e => ⟨e⟩
  let results := processBatches (jsOrDefault opts.batchSize cfg.batchSize)
    cfg.maxRetries fails tasks
  let agg := aggregateResults results
  let ctxF := finalContext ctx
    (progressUpdates opts.count (outcomesOf cfg.maxRetries fails tasks) elapsedAt)
  let metrics := calculateMetrics ctxF agg.1.length agg.2.length
    (totalInvocations cfg.maxRetries fails tasks)
  { successful := agg.1
    failed := agg.2
    metrics := metrics
    summary := createSummary opts.count agg.1.length agg.2.length metrics }

/-- `createAccountsWithPattern` from `account-manager.ts`: emails come
from `patternEmails` (with `Date.now()` and `Math.random()` re-read per
iteration), and the config's own `batchSize` is used (no per-call
override). -/
def createAccountsWithPattern (pattern : String) (count : Nat) (cfg : BulkConfigR)
    (ts : Nat → Nat) (rnd : Nat → String) (fails : Nat → Nat → Option String)
    (elapsedAt : Nat → ℚ) : BulkResultR :=
  let emails := patternEmails pattern count ts rnd
  let tasks : List Task := emails.map fun e => ⟨e⟩
  let ctx := createOperationContext ("account-creation") count 0
  let results := processBatches cfg.batchSize cfg.maxRetries fails tasks
  let agg := aggregateResults results
  let ctxF := finalContext ctx
    (progressUpdates count (outcomesOf cfg.maxRetries fails tasks) elapsedAt)
  let metrics := calculateMetrics ctxF agg.1.length agg.2.length
    (totalInvocations cfg.maxRetries fails tasks)
  { successful := agg.1
    failed := agg.2
    metrics := metrics
    summary := createSummary count agg.1.length agg.2.length metrics }

/-- The value of `validateBulkAccounts` as far as the claims observe
it: the valid/invalid split plus the inline (unguarded) summary. -/
structure ValidationResultR where
  valid : List AccountR
  invalid : List BOFailure
  metrics : BulkMetricsR
  summary : ValidationSummaryR

/-- `validateBulkAccounts` from `account-manager.ts`: one task per
account (id = `account.id`, here its address), processed by the same
batch processor; the summary divides `valid.length / accounts.length`
WITHOUT a zero guard. -/
def validateBulkAccounts (accounts : List AccountR) (cfg : BulkConfigR)
    (fails : Nat → Nat → Option String) (elapsedAt : Nat → ℚ) : ValidationResultR :=
  let tasks : List Task := accounts.map fun a => ⟨a.address⟩
  let ctx := createOperationContext ("validation") accounts.length 0
  let results := processBatches cfg.batchSize cfg.maxRetries fails tasks
  let agg := aggregateResults results
  let ctxF := finalContext ctx
    (progressUpdates accounts.length (outcomesOf cfg.maxRetries fails tasks) elapsedAt)
  { valid := agg.1
    invalid := agg.2
    metrics := calculateMetrics ctxF agg.1.length agg.2.length
      (totalInvocations cfg.maxRetries fails tasks)
    summary := validationSummary accounts.length agg.1.length agg.2.length }

/-! ## Rate limiter (`api-verification/utils/api-client.ts`)

`enforceRateLimit` reads `this.lastRequestTime`, computes the wait,
awaits it, and only afterwards writes `this.lastRequestTime = Date.now()`.
The read and the write are separated by an `await`, so a second caller
entering the method during the wait observes the OLD `lastRequestTime`.
The model splits the method at the `await`: phase 1 (`rlWait`) computes
the wait from the state it reads; phase 2 (`rlResume`) yields the
dispatch time and the state write. -/

/-- The mutable limiter state: `lastRequestTime` (initially `0`). -/
structure RLState where
  lastRequestTime : Nat
  deriving Repr, DecidableEq

/-- Phase 1 of `enforceRateLimit`: the wait computed from the current
time and the state read, i.e.
`if (now - last < requestDelay) wait(requestDelay - (now - last))`. -/
def rlWait (requestDelay now : Nat) (s : RLState) : Nat :=
  if now - s.lastRequestTime < requestDelay then
    requestDelay - (now - s.lastRequestTime)
  else 0

/-- Phase 2 of `enforceRateLimit`: the caller resumes after its wait,
writes `lastRequestTime = Date.now()`, and the request is dispatched.
Returns (dispatch start time, new state). -/
def rlResume (now wait : Nat) : Nat × RLState :=
  (now + wait, ⟨now + wait⟩)

/-- One complete sequential pass through `enforceRateLimit`: a caller
arriving at `now` against state `s` dispatches at the returned time and
leaves the returned state. -/
def rlSequential (requestDelay now : Nat) (s : RLState) : Nat × RLState :=
  rlResume now (rlWait requestDelay now s)

/-- The interleaving the single-threaded JS event loop produces when
two callers enter `enforceRateLimit` in the same tick at time `now`:
both execute phase 1 (reading the same state) before either resumes;
then each resumes and writes.  Returns the two dispatch start times. -/
def rlConcurrentPair (requestDelay now : Nat) (s : RLState) : Nat × Nat :=
  let wA := rlWait requestDelay now s
  let wB := rlWait requestDelay now s
  let rA := rlResume now wA
  let rB := rlResume now wB
  (rA.1, rB.1)

/-! ## Derived views and concrete fixtures -/

/-- The identifiers recorded in the `successful` array (the created
accounts' addresses). -/
def successfulIds (r : BulkResultR) : List String :=
  r.successful.map fun a => a.address

/-- The identifiers recorded in the `failed` array (the failures'
`item` fields). -/
def failedIds (r : BulkResultR) : List String :=
  r.failed.map fun f => f.item

/-- The context as observed after the first `k` progress updates of a
run with the given total and settlement outcomes. -/
def contextAfter (type : String) (total : Nat) (outcomes : List Bool)
    (elapsedAt : Nat → ℚ) (k : Nat) : OperationContextR :=
  finalContext (createOperationContext type total 0)
    ((progressUpdates total outcomes elapsedAt).take k)

/-- Fixture: a constant timestamp oracle. -/
def tsZero : Nat → Nat := fun _ => 0

/-- Fixture: a constant random-string oracle. -/
def rndFix : Nat → String := fun _ => "abcde"

/-- Fixture: a constant elapsed-seconds oracle. -/
def elOne : Nat → ℚ := fun _ => 1

/-- Fixture: every attempt of every item succeeds. -/
def failsNone : Nat → Nat → Option String := fun _ _ => none

/-- Fixture: every attempt of every item fails. -/
def failsAll : Nat → Nat → Option String := fun _ _ => some ("boom")

/-- Fixture: item 0 succeeds at once, every other item always fails
(e.g. the remote rejects the later duplicates of an address). -/
def failsAfterFirst : Nat → Nat → Option String :=
  fun i _ => if i = 0 then none else some ("boom")

/-- Fixture: creation options asking for zero accounts. -/
def optsEmpty : BulkOptionsR :=
  { count := 0, emailBase := "t", domain := "d.c", emailPattern := none,
    batchSize := none, concurrency := none }

/-- Fixture: a pattern containing no placeholder at all — every
generated email is the pattern itself. -/
def flatPat : String := "a@b.c"

/-- Fixture: a pattern containing the index placeholder. -/
def idxPat : String := "u\x7bindex\x7d@x.co"

/-! ## Structural lemmas -/

theorem flatten_chunksOfFuel (n : Nat) :
    ∀ (fuel : Nat) (l : List α), l.length ≤ fuel →
      (chunksOfFuel n fuel l).flatten = l := by
  intro fuel
  induction fuel with
  | zero =>
    intro l h
    cases l with
    | nil => rfl
    | cons x xs => simp at h
  | succ f ih =>
    intro l h
    cases l with
    | nil => rfl
    | cons x xs =>
      simp only [chunksOfFuel, List.flatten_cons]
      rw [ih (xs.drop (n - 1)) (by simp at h ⊢; omega)]
      simp [List.take_append_drop]

theorem flatten_chunksOf (n : Nat) (l : List α) : (chunksOf n l).flatten = l :=
  flatten_chunksOfFuel n l.length l le_rfl

theorem foldl_append_flatMap {α β : Type} (g : α → List β) :
    ∀ (rs : List α) (acc : List β),
      rs.foldl (fun a b => a ++ g b) acc = acc ++ rs.flatMap g := by
  intro rs
  induction rs with
  | nil => intro acc; simp
  | cons r rs ih => intro acc; simp [ih]

theorem aggregateResults_eq (rs : List BatchResultR) :
    aggregateResults rs =
      (rs.flatMap fun b => b.successful, rs.flatMap fun b => b.failed) := by
  unfold aggregateResults
  rw [foldl_append_flatMap, foldl_append_flatMap]
  simp

theorem flatMap_filter_map (P : α → Bool) (f : α → β) :
    ∀ (chs : List (List α)),
      (chs.flatMap fun ch => (ch.filter P).map f) = (chs.flatten.filter P).map f := by
  intro chs
  induction chs with
  | nil => rfl
  | cons ch chs ih => simp [List.filter_append, ih]

theorem aggregate_processBatches_fst (bs : Int) (m : Nat)
    (fails : Nat → Nat → Option String) (tasks : List Task) :
    (aggregateResults (processBatches bs m fails tasks)).1 =
      (tasks.enum.filter fun p => (settle m (fails p.1)).succeeded).map
        fun p => AccountR.mk p.2.id := by
  rw [aggregateResults_eq]
  dsimp only
  unfold processBatches
  rw [List.flatMap_map]
  have h := flatMap_filter_map (fun p : Nat × Task => (settle m (fails p.1)).succeeded)
    (fun p : Nat × Task => AccountR.mk p.2.id) (chunksOf (clampPos bs) tasks.enum)
  rw [flatten_chunksOf] at h
  exact h

theorem aggregate_processBatches_snd (bs : Int) (m : Nat)
    (fails : Nat → Nat → Option String) (tasks : List Task) :
    (aggregateResults (processBatches bs m fails tasks)).2 =
      (tasks.enum.filter fun p => !(settle m (fails p.1)).succeeded).map
        fun p => BOFailure.mk p.2.id (settle m (fails p.1)).lastError
          (settle m (fails p.1)).retryAttempts := by
  rw [aggregateResults_eq]
  dsimp only
  unfold processBatches
  rw [List.flatMap_map]
  have h := flatMap_filter_map (fun p : Nat × Task => !(settle m (fails p.1)).succeeded)
    (fun p : Nat × Task => BOFailure.mk p.2.id (settle m (fails p.1)).lastError
      (settle m (fails p.1)).retryAttempts)
    (chunksOf (clampPos bs) tasks.enum)
  rw [flatten_chunksOf] at h
  exact h

theorem partition_length (bs : Int) (m : Nat)
    (fails : Nat → Nat → Option String) (tasks : List Task) :
    (aggregateResults (processBatches bs m fails tasks)).1.length +
      (aggregateResults (processBatches bs m fails tasks)).2.length = tasks.length := by
  rw [aggregate_processBatches_fst, aggregate_processBatches_snd]
  simp only [List.length_map]
  have h := (List.filter_append_perm
    (fun p : Nat × Task => (settle m (fails p.1)).succeeded) tasks.enum).length_eq
  simp only [List.length_append] at h
  rw [h, List.enum_length]

theorem partition_perm (bs : Int) (m : Nat)
    (fails : Nat → Nat → Option String) (tasks : List Task) :
    ((aggregateResults (processBatches bs m fails tasks)).1.map (fun a => a.address) ++
      (aggregateResults (processBatches bs m fails tasks)).2.map (fun f => f.item)).Perm
      (tasks.map fun t => t.id) := by
  rw [aggregate_processBatches_fst, aggregate_processBatches_snd]
  simp only [List.map_map]
  have hperm := (List.filter_append_perm
    (fun p : Nat × Task => (settle m (fails p.1)).succeeded) tasks.enum).map
    (fun p : Nat × Task => p.2.id)
  rw [List.map_append] at hperm
  have h2 : tasks.enum.map (fun p : Nat × Task => p.2.id) = tasks.map fun t => t.id := by
    have h3 : tasks.enum.map (fun p : Nat × Task => p.2.id) =
        (tasks.enum.map Prod.snd).map (fun t => t.id) := by
      rw [List.map_map]; rfl
    rw [h3, List.enum_map_snd]
  rw [h2] at hperm
  exact hperm

theorem partition_exactly_one (bs : Int) (m : Nat)
    (fails : Nat → Nat → Option String) (tasks : List Task)
    (hnd : (tasks.map fun t => t.id).Nodup) :
    ∀ e ∈ tasks.map (fun t => t.id),
      (e ∈ (aggregateResults (processBatches bs m fails tasks)).1.map (fun a => a.address) ∧
        e ∉ (aggregateResults (processBatches bs m fails tasks)).2.map (fun f => f.item)) ∨
      (e ∉ (aggregateResults (processBatches bs m fails tasks)).1.map (fun a => a.address) ∧
        e ∈ (aggregateResults (processBatches bs m fails tasks)).2.map (fun f => f.item)) := by
  intro e he
  have hperm := partition_perm bs m fails tasks
  have hmem : e ∈ (aggregateResults (processBatches bs m fails tasks)).1.map
      (fun a => a.address) ++ (aggregateResults (processBatches bs m fails tasks)).2.map
      (fun f => f.item) := hperm.mem_iff.2 he
  have hnd2 : ((aggregateResults (processBatches bs m fails tasks)).1.map
      (fun a => a.address) ++ (aggregateResults (processBatches bs m fails tasks)).2.map
      (fun f => f.item)).Nodup := hperm.nodup_iff.2 hnd
  rw [List.nodup_append] at hnd2
  rcases List.mem_append.1 hmem with h1 | h2
  · exact Or.inl ⟨h1, hnd2.2.2 h1⟩
  · refine Or.inr ⟨fun h1 => hnd2.2.2 h1 h2, h2⟩

theorem attemptLoop_of_success (fails : Nat → Option String) (r a : Nat)
    (hf : fails a = none) : attemptLoop fails r a = ⟨true, a, a - 1, ""⟩ := by
  unfold attemptLoop
  rw [hf]

theorem attemptLoop_zero_of_fail (fails : Nat → Option String) (a : Nat) (e : String)
    (hf : fails a = some e) : attemptLoop fails 0 a = ⟨false, a, a - 1, e⟩ := by
  unfold attemptLoop
  rw [hf]

theorem attemptLoop_succ_of_fail (fails : Nat → Option String) (r a : Nat) (e : String)
    (hf : fails a = some e) : attemptLoop fails (r + 1) a = attemptLoop fails r (a + 1) := by
  conv_lhs => rw [attemptLoop]
  rw [hf]

theorem attemptLoop_failed_counts (fails : Nat → Option String) :
    ∀ (r a : Nat), (attemptLoop fails r a).succeeded = false →
      (attemptLoop fails r a).invocations = a + r ∧
        (attemptLoop fails r a).retryAttempts = a + r - 1 := by
  intro r
  induction r with
  | zero =>
    intro a h
    cases hf : fails a with
    | none => rw [attemptLoop_of_success fails 0 a hf] at h; simp at h
    | some e => rw [attemptLoop_zero_of_fail fails a e hf]; exact ⟨rfl, rfl⟩
  | succ r ih =>
    intro a h
    cases hf : fails a with
    | none => rw [attemptLoop_of_success fails (r + 1) a hf] at h; simp at h
    | some e =>
      rw [attemptLoop_succ_of_fail fails r a e hf] at h ⊢
      have hc := ih (a + 1) h
      refine ⟨?_, ?_⟩
      · rw [hc.1]; omega
      · rw [hc.2]; omega

theorem settle_failed_counts (m : Nat) (fails : Nat → Option String)
    (h : (settle m fails).succeeded = false) :
    (settle m fails).invocations = m + 1 ∧ (settle m fails).retryAttempts = m := by
  have := attemptLoop_failed_counts fails m 1 h
  unfold settle
  refine ⟨by rw [this.1]; omega, by rw [this.2]; omega⟩

theorem finalContext_total (us : List ProgressUpdate) :
    ∀ (ctx : OperationContextR), (finalContext ctx us).progress.total =
      ctx.progress.total := by
  induction us with
  | nil => intro ctx; rfl
  | cons u us ih =>
    intro ctx
    unfold finalContext at ih ⊢
    rw [List.foldl_cons, ih]
    rfl

theorem finalContext_startTime (us : List ProgressUpdate) :
    ∀ (ctx : OperationContextR), (finalContext ctx us).startTime = ctx.startTime := by
  induction us with
  | nil => intro ctx; rfl
  | cons u us ih =>
    intro ctx
    unfold finalContext at ih ⊢
    rw [List.foldl_cons, ih]
    rfl

theorem finalContext_errors (us : List ProgressUpdate) :
    ∀ (ctx : OperationContextR), (finalContext ctx us).errors = ctx.errors := by
  induction us with
  | nil => intro ctx; rfl
  | cons u us ih =>
    intro ctx
    unfold finalContext at ih ⊢
    rw [List.foldl_cons, ih]
    rfl

theorem finalContext_append_one (us : List ProgressUpdate) (u : ProgressUpdate)
    (ctx : OperationContextR) :
    (finalContext ctx (us ++ [u])).progress.completed = u.completed := by
  unfold finalContext
  rw [List.foldl_append]
  rfl

theorem length_generateEmailAddresses (opts : BulkOptionsR) (ts : Nat)
    (rnd : Nat → String) :
    (generateEmailAddresses opts ts rnd).length = opts.count := by
  unfold generateEmailAddresses
  cases opts.emailPattern with
  | none => simp [defaultEmails]
  | some pat => simp

theorem length_patternEmails (pattern : String) (count : Nat) (ts : Nat → Nat)
    (rnd : Nat → String) : (patternEmails pattern count ts rnd).length = count := by
  simp [patternEmails]

/-- **C1** (amended).  For every completed run of
`createAccountsWithPattern` (and hence of the shared
aggregation-over-`processBatches` pipeline): the number of entries in
`successful` plus the number in `failed` equals the number of input
items; the multiset of identifiers across the two arrays is exactly the
multiset of input identifiers; and — the amendment — the "each
identifier appears in exactly one of the two arrays" form holds when
the generated identifiers are pairwise distinct.  (When a pattern
without placeholders makes identifiers collide, the same identifier can
appear in both arrays; see the counterexample.) -/
theorem createAccountsWithPattern_partition_amended
    (pattern : String) (count : Nat) (cfg : BulkConfigR) (ts : Nat → Nat)
    (rnd : Nat → String) (fails : Nat → Nat → Option String) (elapsedAt : Nat → ℚ) :
    (createAccountsWithPattern pattern count cfg ts rnd fails elapsedAt).successful.length
        + (createAccountsWithPattern pattern count cfg ts rnd fails elapsedAt).failed.length
        = count
    ∧ (successfulIds (createAccountsWithPattern pattern count cfg ts rnd fails elapsedAt)
        ++ failedIds (createAccountsWithPattern pattern count cfg ts rnd fails elapsedAt)).Perm
        (patternEmails pattern count ts rnd)
    ∧ ((patternEmails pattern count ts rnd).Nodup →
        ∀ e ∈ patternEmails pattern count ts rnd,
          (e ∈ successfulIds (createAccountsWithPattern pattern count cfg ts rnd fails elapsedAt)
              ∧ e ∉ failedIds (createAccountsWithPattern pattern count cfg ts rnd fails elapsedAt))
          ∨ (e ∉ successfulIds (createAccountsWithPattern pattern count cfg ts rnd fails elapsedAt)
              ∧ e ∈ failedIds (createAccountsWithPattern pattern count cfg ts rnd fails elapsedAt))) := by
  have hids : ((patternEmails pattern count ts rnd).map (fun e => Task.mk e)).map
      (fun t => t.id) = patternEmails pattern count ts rnd := by
    rw [List.map_map]
    exact List.map_id _
  unfold createAccountsWithPattern successfulIds failedIds
  dsimp only
  refine ⟨?_, ?_, ?_⟩
  · rw [partition_length cfg.batchSize cfg.maxRetries fails
      ((patternEmails pattern count ts rnd).map fun e => ⟨e⟩)]
    simp [length_patternEmails]
  · have h := partition_perm cfg.batchSize cfg.maxRetries fails
      ((patternEmails pattern count ts rnd).map fun e => ⟨e⟩)
    rw [hids] at h
    exact h
  · intro hnd e he
    have h := partition_exactly_one cfg.batchSize cfg.maxRetries fails
      ((patternEmails pattern count ts rnd).map fun e => ⟨e⟩)
      (by rw [hids]; exact hnd) e (by rw [hids]; exact he)
    exact h

/-- **C1** (counterexample).  With pattern `"a@b.c"` (no `{index}`
placeholder), `count = 2` and the default configuration, both generated
items have identifier `"a@b.c"`; when the first creation succeeds and
the second fails, that input identifier appears in BOTH the
`successful` and the `failed` array, refuting the claim's
"each input item's identifier appears in exactly one of the two
arrays". -/
theorem pattern_without_index_id_in_both_arrays :
    "a@b.c" ∈ successfulIds
        (createAccountsWithPattern flatPat 2 DEFAULT_CONFIG tsZero rndFix failsAfterFirst elOne)
    ∧ "a@b.c" ∈ failedIds
        (createAccountsWithPattern flatPat 2 DEFAULT_CONFIG tsZero rndFix failsAfterFirst elOne)
    ∧ "a@b.c" ∈ patternEmails flatPat 2 tsZero rndFix
    ∧ ¬ (∀ e ∈ patternEmails flatPat 2 tsZero rndFix,
        (e ∈ successfulIds (createAccountsWithPattern flatPat 2 DEFAULT_CONFIG tsZero rndFix
              failsAfterFirst elOne)
            ∧ e ∉ failedIds (createAccountsWithPattern flatPat 2 DEFAULT_CONFIG tsZero rndFix
              failsAfterFirst elOne))
        ∨ (e ∉ successfulIds (createAccountsWithPattern flatPat 2 DEFAULT_CONFIG tsZero rndFix
              failsAfterFirst elOne)
            ∧ e ∈ failedIds (createAccountsWithPattern flatPat 2 DEFAULT_CONFIG tsZero rndFix
              failsAfterFirst elOne))) := by
  decide

/-- Witness for `createAccountsWithPattern_partition_amended`: the
pattern `"u{index}@x.co"` with `count = 2` produces the distinct
identifiers `u1@x.co`, `u2@x.co`, and each lands in exactly one
array. -/
theorem createAccountsWithPattern_partition_amended_witness :
    (patternEmails idxPat 2 tsZero rndFix).Nodup
    ∧ (∀ e ∈ patternEmails idxPat 2 tsZero rndFix,
        (e ∈ successfulIds (createAccountsWithPattern idxPat 2 DEFAULT_CONFIG tsZero rndFix
              failsAfterFirst elOne)
            ∧ e ∉ failedIds (createAccountsWithPattern idxPat 2 DEFAULT_CONFIG tsZero rndFix
              failsAfterFirst elOne))
        ∨ (e ∉ successfulIds (createAccountsWithPattern idxPat 2 DEFAULT_CONFIG tsZero rndFix
              failsAfterFirst elOne)
            ∧ e ∈ failedIds (createAccountsWithPattern idxPat 2 DEFAULT_CONFIG tsZero rndFix
              failsAfterFirst elOne))) :=
  ⟨by decide,
    (createAccountsWithPattern_partition_amended idxPat 2 DEFAULT_CONFIG tsZero rndFix
      failsAfterFirst elOne).2.2 (by decide)⟩

/-- **C2** (counterexample).  Two callers entering `enforceRateLimit`
in the same event-loop tick (time `0`, previous dispatch recorded at
`0`, `requestDelay = 1000`) both read the stale `lastRequestTime`
before either writes it back, so both dispatch at time `1000`: the two
consecutive dispatch start times coincide — spacing `0`, not
`≥ 1000` — refuting the claim that the spacing holds across concurrent
callers. -/
theorem concurrent_callers_zero_spacing :
    (rlConcurrentPair 1000 0 ⟨0⟩).1 = 1000
    ∧ (rlConcurrentPair 1000 0 ⟨0⟩).2 = 1000
    ∧ (rlConcurrentPair 1000 0 ⟨0⟩).2 - (rlConcurrentPair 1000 0 ⟨0⟩).1 = 0
    ∧ 0 < 1000 := by
  decide

/-- **C2** (amended).  For a sequential caller — each pass through
`enforceRateLimit` completing before the next begins — the dispatch
start time is at least `requestDelay` after the previously recorded
dispatch (`lastRequestTime`), and the new `lastRequestTime` records the
dispatch start, so consecutive sequential dispatches are spaced by at
least `requestDelay`.  The cross-caller guarantee of the original claim
does not hold (see the counterexample). -/
theorem sequential_rate_spacing (d now : Nat) (s : RLState)
    (hmono : s.lastRequestTime ≤ now) :
    d ≤ (rlSequential d now s).1 - s.lastRequestTime
    ∧ (rlSequential d now s).2.lastRequestTime = (rlSequential d now s).1 := by
  unfold rlSequential rlResume rlWait
  dsimp only
  constructor
  · by_cases h : now - s.lastRequestTime < d
    · rw [if_pos h]; omega
    · rw [if_neg h]; omega
  · rfl

/-- Witness for `sequential_rate_spacing` at `d = 1000`, a caller at
time `100` against a dispatch recorded at time `50`. -/
theorem sequential_rate_spacing_witness :
    (50 : Nat) ≤ 100
    ∧ 1000 ≤ (rlSequential 1000 100 ⟨50⟩).1 - 50
    ∧ (rlSequential 1000 100 ⟨50⟩).2.lastRequestTime = (rlSequential 1000 100 ⟨50⟩).1 :=
  ⟨by decide, (sequential_rate_spacing 1000 100 ⟨50⟩ (by decide)).1,
    (sequential_rate_spacing 1000 100 ⟨50⟩ (by decide)).2⟩

/-- **C3** (confirmed against the spec-modelled retry loop).  Every
entry of the aggregated `failed` array comes from an item whose
settlement failed; its recorded `retryAttempts` equals
`min(observed failures, maxRetries)` (all its invocations failed, so
observed failures are its invocations), the worker was invoked exactly
`retryAttempts + 1` times for it, and the default backoff delays the
`k`-th retry by `retryDelay * 2^(k-1)`. -/
theorem failed_retry_bound (bs : Int) (m : Nat) (fails : Nat → Nat → Option String)
    (tasks : List Task) (fl : BOFailure)
    (hfl : fl ∈ (aggregateResults (processBatches bs m fails tasks)).2) :
    (∃ i, (settle m (fails i)).succeeded = false
      ∧ fl.retryAttempts = min (settle m (fails i)).invocations m
      ∧ (settle m (fails i)).invocations = fl.retryAttempts + 1
      ∧ fl.retryAttempts = m)
    ∧ (∀ rd k, delayFor rd k = rd * 2 ^ (k - 1)) := by
  constructor
  · rw [aggregate_processBatches_snd] at hfl
    rcases List.mem_map.1 hfl with ⟨p, hp, hEq⟩
    have hps := (List.mem_filter.1 hp).2
    have hfail : (settle m (fails p.1)).succeeded = false := by
      simpa using hps
    have hc := settle_failed_counts m (fails p.1) hfail
    have hra : fl.retryAttempts = m := by rw [← hEq]; exact hc.2
    refine ⟨p.1, hfail, ?_, ?_, hra⟩
    · rw [hra, hc.1]; omega
    · rw [hra, hc.1]
  · intro rd k
    rfl

/-- Witness for `failed_retry_bound`: one task whose worker always
fails, `maxRetries = 2` — the failure record carries
`retryAttempts = 2` after 3 invocations. -/
theorem failed_retry_bound_witness :
    (⟨"x", "boom", 2⟩ : BOFailure) ∈ (aggregateResults (processBatches 20 2 failsAll [⟨"x"⟩])).2
    ∧ ((∃ i, (settle 2 (failsAll i)).succeeded = false
        ∧ (⟨"x", "boom", 2⟩ : BOFailure).retryAttempts = min (settle 2 (failsAll i)).invocations 2
        ∧ (settle 2 (failsAll i)).invocations = (⟨"x", "boom", 2⟩ : BOFailure).retryAttempts + 1
        ∧ (⟨"x", "boom", 2⟩ : BOFailure).retryAttempts = 2)
      ∧ (∀ rd k, delayFor rd k = rd * 2 ^ (k - 1))) :=
  ⟨by decide, failed_retry_bound 20 2 failsAll [⟨"x"⟩] ⟨"x", "boom", 2⟩ (by decide)⟩

/-- **C4** (counterexample).  A supplied `batchSize` of `0` is falsy,
so `options.batchSize || config.batchSize` silently replaces it with
the default `20` — not with the clamped value `1`; and a supplied
`concurrency` of `-2` is truthy and is passed through unchanged, still
`< 1`.  So values `< 1` are NOT clamped to `1` by the account
manager. -/
theorem zero_batchSize_replaced_by_default :
    jsOrDefault (some 0) DEFAULT_CONFIG.batchSize = 20
    ∧ ¬ jsOrDefault (some 0) DEFAULT_CONFIG.batchSize = 1
    ∧ jsOrDefault (some (-2)) DEFAULT_CONFIG.concurrency = -2
    ∧ jsOrDefault (some (-2)) DEFAULT_CONFIG.concurrency < 1 := by
  decide

/-- **C4** (amended).  The effective scheduling parameters computed by
`createBulkAccounts` via JavaScript `||`: an absent or zero supplied
value is silently replaced by the configured default, and any non-zero
supplied value — including negative ones — is passed through unchanged;
no clamping to `1` happens in the account manager. -/
theorem jsOrDefault_effective_config (d x : Int) (hx : x ≠ 0) :
    jsOrDefault none d = d
    ∧ jsOrDefault (some 0) d = d
    ∧ jsOrDefault (some x) d = x := by
  refine ⟨rfl, by simp [jsOrDefault], by simp [jsOrDefault, hx]⟩

/-- Witness for `jsOrDefault_effective_config` at `d = 20`,
`x = -2`. -/
theorem jsOrDefault_effective_config_witness :
    (-2 : Int) ≠ 0
    ∧ (jsOrDefault none 20 = 20 ∧ jsOrDefault (some 0) 20 = 20
        ∧ jsOrDefault (some (-2)) 20 = -2) :=
  ⟨by decide, jsOrDefault_effective_config 20 (-2) (by decide)⟩

/-- **C5** (confirmed against the spec-modelled processor).  A run over
an empty input (`count = 0`) returns `successful = []`, `failed = []`
and `metrics.totalTime = 0` (time is the virtual invocation-counting
clock, so `≈ 0` is exactly `0`), and the worker function is never
invoked; the model is total, so no error is raised. -/
theorem empty_input_returns_empty (opts : BulkOptionsR) (cfg : BulkConfigR)
    (ts : Nat) (rnd : Nat → String) (fails : Nat → Nat → Option String)
    (elapsedAt : Nat → ℚ) (h : opts.count = 0) :
    (createBulkAccounts opts cfg ts rnd fails elapsedAt).successful = []
    ∧ (createBulkAccounts opts cfg ts rnd fails elapsedAt).failed = []
    ∧ (createBulkAccounts opts cfg ts rnd fails elapsedAt).metrics.totalTime = 0
    ∧ totalInvocations cfg.maxRetries fails
        ((generateEmailAddresses opts ts rnd).map fun e => ⟨e⟩) = 0 := by
  have hemails : generateEmailAddresses opts ts rnd = [] := by
    have hl := length_generateEmailAddresses opts ts rnd
    rw [h] at hl
    exact List.length_eq_zero.1 hl
  unfold createBulkAccounts
  dsimp only
  rw [hemails]
  refine ⟨rfl, rfl, ?_, rfl⟩
  unfold calculateMetrics
  dsimp only
  rw [finalContext_startTime]
  rfl

/-- Witness for `empty_input_returns_empty` at the zero-count
options. -/
theorem empty_input_returns_empty_witness :
    optsEmpty.count = 0
    ∧ ((createBulkAccounts optsEmpty DEFAULT_CONFIG 0 rndFix failsNone elOne).successful = []
      ∧ (createBulkAccounts optsEmpty DEFAULT_CONFIG 0 rndFix failsNone elOne).failed = []
      ∧ (createBulkAccounts optsEmpty DEFAULT_CONFIG 0 rndFix failsNone elOne).metrics.totalTime = 0
      ∧ totalInvocations DEFAULT_CONFIG.maxRetries failsNone
          ((generateEmailAddresses optsEmpty 0 rndFix).map fun e => ⟨e⟩) = 0) :=
  ⟨rfl, empty_input_returns_empty optsEmpty DEFAULT_CONFIG 0 rndFix failsNone elOne rfl⟩

theorem countP_id_add_countP_not (l : List Bool) :
    l.countP (fun b => b) + l.countP (fun b => !b) = l.length := by
  induction l with
  | nil => rfl
  | cons b bs ih =>
    cases b <;> simp [List.countP_cons, ← ih] <;> omega

theorem contextAfter_total (type : String) (total : Nat) (outcomes : List Bool)
    (elapsedAt : Nat → ℚ) (k : Nat) :
    (contextAfter type total outcomes elapsedAt k).progress.total = total := by
  unfold contextAfter
  rw [finalContext_total]
  rfl

theorem contextAfter_completed (type : String) (total : Nat) (outcomes : List Bool)
    (elapsedAt : Nat → ℚ) (k : Nat) (hk : k ≤ outcomes.length) :
    (contextAfter type total outcomes elapsedAt k).progress.completed = k := by
  cases k with
  | zero => rfl
  | succ j =>
    unfold contextAfter progressUpdates
    rw [← List.map_take, List.take_range,
      Nat.min_eq_left (by omega : j + 1 ≤ outcomes.length), List.range_succ,
      List.map_append, List.map_singleton]
    rw [finalContext_append_one]
    unfold trackerUpdate
    dsimp only
    rw [List.length_take]
    omega

/-- **C6** (confirmed against the spec-modelled tracker).  At every
progress update of a run (context after `k` settlements), `completed`
equals the number of items settled successful so far plus the number
settled failed so far, `completed ≤ total`, and the `total` field still
holds the value fixed at batch start — `updateProgress` re-stamps only
the updated fields and never touches `total`. -/
theorem progress_invariant (type : String) (total : Nat) (outcomes : List Bool)
    (elapsedAt : Nat → ℚ) (k : Nat) (h1 : outcomes.length ≤ total)
    (h2 : k ≤ outcomes.length) :
    (contextAfter type total outcomes elapsedAt k).progress.completed
        = (outcomes.take k).countP (fun b => b) + (outcomes.take k).countP (fun b => !b)
    ∧ (contextAfter type total outcomes elapsedAt k).progress.completed ≤ total
    ∧ (contextAfter type total outcomes elapsedAt k).progress.total = total := by
  have hc := contextAfter_completed type total outcomes elapsedAt k h2
  refine ⟨?_, ?_, contextAfter_total type total outcomes elapsedAt k⟩
  · rw [hc, countP_id_add_countP_not, List.length_take]
    omega
  · rw [hc]; omega

/-- Witness for `progress_invariant`: a run of 2 settlements (one
success, one failure) out of a total of 3, observed after both. -/
theorem progress_invariant_witness :
    ([true, false] : List Bool).length ≤ 3
    ∧ 2 ≤ ([true, false] : List Bool).length
    ∧ ((contextAfter ("account-creation") 3 [true, false] elOne 2).progress.completed
        = (([true, false] : List Bool).take 2).countP (fun b => b)
          + (([true, false] : List Bool).take 2).countP (fun b => !b)
      ∧ (contextAfter ("account-creation") 3 [true, false] elOne 2).progress.completed ≤ 3
      ∧ (contextAfter ("account-creation") 3 [true, false] elOne 2).progress.total = 3) :=
  ⟨by decide, by decide,
    progress_invariant ("account-creation") 3 [true, false] elOne 2 (by decide) (by decide)⟩

/-- **C7** (counterexample).  The very first snapshot delivered to the
progress callback — the `started` event emitted on the freshly created
context — has `currentRate = 0` but reports
`estimatedTimeRemaining = 0` (a number), not `null`: in the source the
field's type is `number` and `createOperationContext` initialises it to
`0`, so the claim "whenever `currentRate = 0` the field is reported as
`null`" fails on this snapshot. -/
theorem started_event_eta_not_null :
    (emitProgress ("started") (createOperationContext ("account-creation") 5 0)).progress.currentRate = 0
    ∧ (emitProgress ("started")
        (createOperationContext ("account-creation") 5 0)).progress.estimatedTimeRemaining = some 0
    ∧ some (0 : ℚ) ≠ (none : Option ℚ) := by
  refine ⟨rfl, rfl, by decide⟩

/-- **C7** (amended).  The initial `started` snapshot reports
`estimatedTimeRemaining = 0` (a number) together with
`currentRate = 0`; the snapshots recomputed by the (spec-modelled)
tracker report `null` exactly when `currentRate = 0` and
`(total - completed) / currentRate` otherwise. -/
theorem eta_reporting_amended (total now : Nat) (settled : List Bool) (elapsed : ℚ) :
    ((emitProgress ("started") (createOperationContext ("account-creation") total now)).progress.currentRate = 0
      ∧ (emitProgress ("started")
          (createOperationContext ("account-creation") total now)).progress.estimatedTimeRemaining = some 0)
    ∧ ((trackerUpdate total settled elapsed).currentRate = 0 →
        (trackerUpdate total settled elapsed).estimatedTimeRemaining = none)
    ∧ ((trackerUpdate total settled elapsed).currentRate ≠ 0 →
        (trackerUpdate total settled elapsed).estimatedTimeRemaining
          = some (((total : ℚ) - (settled.length : ℚ))
              / (trackerUpdate total settled elapsed).currentRate)) := by
  refine ⟨⟨rfl, rfl⟩, ?_, ?_⟩
  · intro h
    unfold trackerUpdate at h ⊢
    dsimp only at h ⊢
    rw [if_pos h]
  · intro h
    unfold trackerUpdate at h ⊢
    dsimp only at h ⊢
    rw [if_neg h]

/-- Witness for `eta_reporting_amended`: total 5, one successful
settlement after 1 elapsed second (rate 1, ETA 4); and an empty
settlement list (rate 0, ETA `null`). -/
theorem eta_reporting_amended_witness :
    ((trackerUpdate 5 [true] 1).currentRate ≠ 0
      ∧ (trackerUpdate 5 [true] 1).estimatedTimeRemaining
          = some ((((5 : Nat) : ℚ) - ((([true] : List Bool).length : Nat) : ℚ))
              / (trackerUpdate 5 [true] 1).currentRate))
    ∧ ((trackerUpdate 5 ([] : List Bool) 1).currentRate = 0
      ∧ (trackerUpdate 5 ([] : List Bool) 1).estimatedTimeRemaining = none) :=
  ⟨⟨by norm_num [trackerUpdate], (eta_reporting_amended 5 0 [true] 1).2.2
      (by norm_num [trackerUpdate])⟩,
    ⟨by norm_num [trackerUpdate], (eta_reporting_amended 5 0 ([] : List Bool) 1).2.1
      (by norm_num [trackerUpdate])⟩⟩

/-- **C8** (confirmed against the spec-modelled processor).  Individual
worker failures never abort the run: for EVERY failure oracle the run
yields a complete `BatchResult` — the partition covers all `count`
items — and each ultimately failing item is recovered locally into a
`failed` entry carrying its id, its last worker error message, and its
retry count.  (The model is a total function: configuration errors are
the only thing the source's outer `try/catch` rethrows, and per-item
errors never reach it.) -/
theorem per_item_errors_recovered (opts : BulkOptionsR) (cfg : BulkConfigR)
    (ts : Nat) (rnd : Nat → String) (fails : Nat → Nat → Option String)
    (elapsedAt : Nat → ℚ) :
    (createBulkAccounts opts cfg ts rnd fails elapsedAt).successful.length
        + (createBulkAccounts opts cfg ts rnd fails elapsedAt).failed.length = opts.count
    ∧ (createBulkAccounts opts cfg ts rnd fails elapsedAt).failed
        = (((generateEmailAddresses opts ts rnd).map fun e => (⟨e⟩ : Task)).enum.filter
            fun p => !(settle cfg.maxRetries (fails p.1)).succeeded).map
            (fun p => ⟨p.2.id, (settle cfg.maxRetries (fails p.1)).lastError,
              (settle cfg.maxRetries (fails p.1)).retryAttempts⟩) := by
  unfold createBulkAccounts
  dsimp only
  constructor
  · rw [partition_length (jsOrDefault opts.batchSize cfg.batchSize) cfg.maxRetries fails
      ((generateEmailAddresses opts ts rnd).map fun e => ⟨e⟩)]
    rw [List.length_map, length_generateEmailAddresses]
  · exact aggregate_processBatches_snd (jsOrDefault opts.batchSize cfg.batchSize)
      cfg.maxRetries fails ((generateEmailAddresses opts ts rnd).map fun e => ⟨e⟩)

/-- **C9** (confirmed).  All three summary-producing operations return
`metrics.totalRetries = 0` no matter how many retries actually
happened: `calculateMetrics` sums `retryAttempts` over
`context.errors`, the context is created with `errors = []`, and no
code path ever appends to it. -/
theorem totalRetries_always_zero (opts : BulkOptionsR) (cfg : BulkConfigR)
    (ts : Nat) (rnd : Nat → String) (fails : Nat → Nat → Option String)
    (elapsedAt : Nat → ℚ) (pattern : String) (count : Nat) (tsIter : Nat → Nat)
    (accounts : List AccountR) :
    (createBulkAccounts opts cfg ts rnd fails elapsedAt).metrics.totalRetries = 0
    ∧ (createAccountsWithPattern pattern count cfg tsIter rnd fails elapsedAt).metrics.totalRetries = 0
    ∧ (validateBulkAccounts accounts cfg fails elapsedAt).metrics.totalRetries = 0 := by
  refine ⟨?_, ?_, ?_⟩ <;>
    first
    | (unfold createBulkAccounts calculateMetrics
       dsimp only
       rw [finalContext_errors]
       rfl)
    | (unfold createAccountsWithPattern calculateMetrics
       dsimp only
       rw [finalContext_errors]
       rfl)
    | (unfold validateBulkAccounts calculateMetrics
       dsimp only
       rw [finalContext_errors]
       rfl)

/-- **C10** (confirmed).  `validateBulkAccounts` on an empty input
computes `validationRate` by the unguarded division `0/0` — `NaN`,
modelled `none` — while the analogous divisions in `createSummary` and
`calculateMetrics` are guarded by a `> 0` check and return `0` on empty
input; the zero-guard is therefore not an invariant of every public
summary-producing operation. -/
theorem validationRate_unguarded_empty (cfg : BulkConfigR)
    (fails : Nat → Nat → Option String) (elapsedAt : Nat → ℚ) (s f : Nat)
    (m : BulkMetricsR) (ctx : OperationContextR) (now : Nat) :
    (validateBulkAccounts [] cfg fails elapsedAt).summary.validationRate = none
    ∧ (createSummary 0 s f m).successRate = 0
    ∧ (createSummary 0 s f m).averageTimePerAccount = 0
    ∧ (calculateMetrics ctx 0 0 now).averageResponseTime = 0
    ∧ (calculateMetrics ctx 0 0 now).errorRate = 0
    ∧ (calculateMetrics ctx 0 0 now).requestsPerSecond = some 0 := by
  refine ⟨?_, by simp [createSummary], by simp [createSummary],
    by simp [calculateMetrics], by simp [calculateMetrics], by simp [calculateMetrics]⟩
  unfold validateBulkAccounts validationSummary jsDivQ
  dsimp only
  rw [if_pos (by norm_num)]
  rfl

end MailBulk
